import Mathlib

/-!
Verification of the tile-pyramid addressing and retrieval core of a
GeoPackage tile library (TypeScript).  JavaScript numbers are modelled as
exact rationals (ℚ); JavaScript 32-bit integer operations (`1 << zoom`,
`~~x`) are modelled exactly with an explicit signed 32-bit wrap; a division
whose divisor can be zero in the scope of a claim is modelled with an
Option result, `none` standing for the non-finite JavaScript value
(Infinity or NaN).  Each definition is a direct translation of the
corresponding source function.
-/

namespace GeoPackage

/-- JavaScript `Math.round`: round half toward positive infinity. -/
def jsRound (q : ℚ) : ℤ := ⌊q + 1/2⌋

/-- Signed 32-bit wrap of an integer (the final step of JavaScript's
`ToInt32` conversion, used by the bitwise operators). -/
def toInt32 (n : ℤ) : ℤ := (n + 2 ^ 31) % 2 ^ 32 - 2 ^ 31

/-- Truncation toward zero (the integral part taken by `ToInt32` before
the 32-bit wrap). -/
def truncTowardZero (q : ℚ) : ℤ := if 0 ≤ q then ⌊q⌋ else ⌈q⌉

/-- JavaScript `~~x` (double bitwise not): `ToInt32`, i.e. truncate toward
zero, then wrap to a signed 32-bit integer. -/
def jsToInt32 (q : ℚ) : ℤ := toInt32 (truncTowardZero q)

/-- JavaScript division at a call site where the divisor can be zero:
`none` models the non-finite result (Infinity or NaN). -/
def jsDiv (a b : ℚ) : Option ℚ := if b = 0 then none else some (a / b)

/-- Axis-aligned rectangle, fields in the order of the BoundingBox
constructor used by the tile utilities:
`new BoundingBox(minLongitude, maxLongitude, minLatitude, maxLatitude)`. -/
structure BoundingBox where
  minLongitude : ℚ
  maxLongitude : ℚ
  minLatitude : ℚ
  maxLatitude : ℚ
deriving DecidableEq

/-- `boundingBox.width` getter: `maxLongitude - minLongitude`. -/
def BoundingBox.width (b : BoundingBox) : ℚ := b.maxLongitude - b.minLongitude

/-- `boundingBox.height` getter: `maxLatitude - minLatitude`. -/
def BoundingBox.height (b : BoundingBox) : ℚ := b.maxLatitude - b.minLatitude

/-- `boundingBox.copy()`: a fresh object with the same field values. -/
def BoundingBox.copy (b : BoundingBox) : BoundingBox :=
  ⟨b.minLongitude, b.maxLongitude, b.minLatitude, b.maxLatitude⟩

/-- `boundingBox.setMinLongitude(v)` applied to a box value. -/
def BoundingBox.setMinLongitude (b : BoundingBox) (v : ℚ) : BoundingBox :=
  ⟨v, b.maxLongitude, b.minLatitude, b.maxLatitude⟩

/-- `boundingBox.setMaxLongitude(v)` applied to a box value. -/
def BoundingBox.setMaxLongitude (b : BoundingBox) (v : ℚ) : BoundingBox :=
  ⟨b.minLongitude, v, b.minLatitude, b.maxLatitude⟩

/-- Integer tile-index rectangle in the field order of the tile-grid data
model (`TileGrid = {minX, minY, maxX, maxY}`), as constructed by the
zoom-remapping code: `new TileGrid(minX, minY, maxX, maxY)`. -/
structure TileGrid where
  min_x : ℤ
  min_y : ℤ
  max_x : ℤ
  max_y : ℤ
deriving DecidableEq

/-- Tile-index rectangle holding JavaScript numbers, in the field order of
the constructor call `new TileGrid(minColumn, maxColumn, minRow, maxRow)`
used by `getTileGridWithTotalBoundingBox`. -/
structure TileGridNum where
  min_x : ℚ
  max_x : ℚ
  min_y : ℚ
  max_y : ℚ
deriving DecidableEq

/-- Tile matrix metadata row (one per stored zoom level). -/
structure TileMatrix where
  zoom_level : ℤ
  matrix_width : ℚ
  matrix_height : ℚ
  tile_width : ℚ
  tile_height : ℚ
deriving DecidableEq

/-- `ProjectionConstants.WEB_MERCATOR_HALF_WORLD_WIDTH = 20037508.342789244`. -/
def WEB_MERCATOR_HALF_WORLD_WIDTH : ℚ := 20037508342789244 / 1000000000

/-! ## Zoom-level remapping (claim C4)

`tileGridZoom` and its four helpers, translated from the tile-grid
zoom-remapping functions of the tile bounding box utilities. -/

/-- `tileGridMinZoomIncrease(min, zoomLevels) = min * 2^zoomLevels`. -/
def tileGridMinZoomIncrease (min : ℤ) (zoomLevels : ℕ) : ℤ :=
  min * 2 ^ zoomLevels

/-- `tileGridMaxZoomIncrease(max, zoomLevels) = (max + 1) * 2^zoomLevels - 1`. -/
def tileGridMaxZoomIncrease (max : ℤ) (zoomLevels : ℕ) : ℤ :=
  (max + 1) * 2 ^ zoomLevels - 1

/-- `tileGridMinZoomDecrease(min, zoomLevels) = floor(min / 2^zoomLevels)`. -/
def tileGridMinZoomDecrease (min : ℤ) (zoomLevels : ℕ) : ℤ :=
  ⌊(min : ℚ) / 2 ^ zoomLevels⌋

/-- `tileGridMaxZoomDecrease(max, zoomLevels) = ceil((max + 1) / 2^zoomLevels - 1)`
(the `- 1` is inside the ceiling in the source). -/
def tileGridMaxZoomDecrease (max : ℤ) (zoomLevels : ℕ) : ℤ :=
  ⌈((max + 1 : ℤ) : ℚ) / 2 ^ zoomLevels - 1⌉

/-- `tileGridZoomIncrease`: apply the per-axis increase helpers. -/
def tileGridZoomIncrease (tileGrid : TileGrid) (zoomLevels : ℕ) : TileGrid :=
  ⟨tileGridMinZoomIncrease tileGrid.min_x zoomLevels,
   tileGridMinZoomIncrease tileGrid.min_y zoomLevels,
   tileGridMaxZoomIncrease tileGrid.max_x zoomLevels,
   tileGridMaxZoomIncrease tileGrid.max_y zoomLevels⟩

/-- `tileGridZoomDecrease`: apply the per-axis decrease helpers. -/
def tileGridZoomDecrease (tileGrid : TileGrid) (zoomLevels : ℕ) : TileGrid :=
  ⟨tileGridMinZoomDecrease tileGrid.min_x zoomLevels,
   tileGridMinZoomDecrease tileGrid.min_y zoomLevels,
   tileGridMaxZoomDecrease tileGrid.max_x zoomLevels,
   tileGridMaxZoomDecrease tileGrid.max_y zoomLevels⟩

/-- `tileGridZoom(tileGrid, fromZoom, toZoom)`: increase when the zoom
change is positive, decrease by `Math.abs(zoomChange)` when negative,
identity otherwise. -/
def tileGridZoom (tileGrid : TileGrid) (fromZoom toZoom : ℤ) : TileGrid :=
  let zoomChange := toZoom - fromZoom
  if 0 < zoomChange then tileGridZoomIncrease tileGrid zoomChange.natAbs
  else if zoomChange < 0 then tileGridZoomDecrease tileGrid zoomChange.natAbs
  else tileGrid

/-- Claim C4: zooming in multiplies the min by `2^Δ` and maps the max to
`(max+1)·2^Δ − 1`; zooming out takes `floor(min / 2^|Δ|)` and
`ceil((max+1)/2^|Δ|) − 1`; in particular `TileGrid(1,1,1,1)` remapped from
zoom 0 to zoom 2 gives `TileGrid(4,4,7,7)` and back. -/
theorem claim_C4 (g : TileGrid) (fromZoom toZoom : ℤ)
    (hx0 : 0 ≤ g.min_x) (hx : g.min_x ≤ g.max_x)
    (hy0 : 0 ≤ g.min_y) (hy : g.min_y ≤ g.max_y) :
    (0 < toZoom - fromZoom →
      tileGridZoom g fromZoom toZoom =
        ⟨g.min_x * 2 ^ (toZoom - fromZoom).natAbs,
         g.min_y * 2 ^ (toZoom - fromZoom).natAbs,
         (g.max_x + 1) * 2 ^ (toZoom - fromZoom).natAbs - 1,
         (g.max_y + 1) * 2 ^ (toZoom - fromZoom).natAbs - 1⟩) ∧
    (toZoom - fromZoom < 0 →
      tileGridZoom g fromZoom toZoom =
        ⟨⌊(g.min_x : ℚ) / 2 ^ (toZoom - fromZoom).natAbs⌋,
         ⌊(g.min_y : ℚ) / 2 ^ (toZoom - fromZoom).natAbs⌋,
         ⌈((g.max_x + 1 : ℤ) : ℚ) / 2 ^ (toZoom - fromZoom).natAbs⌉ - 1,
         ⌈((g.max_y + 1 : ℤ) : ℚ) / 2 ^ (toZoom - fromZoom).natAbs⌉ - 1⟩) ∧
    tileGridZoom ⟨1, 1, 1, 1⟩ 0 2 = ⟨4, 4, 7, 7⟩ ∧
    tileGridZoom ⟨4, 4, 7, 7⟩ 2 0 = ⟨1, 1, 1, 1⟩ := by
  refine ⟨?_, ?_, ?_, ?_⟩
  · intro h
    simp only [tileGridZoom, tileGridZoomIncrease, tileGridMinZoomIncrease,
      tileGridMaxZoomIncrease, if_pos h]
  · intro h
    have h1 : ¬ 0 < toZoom - fromZoom := by omega
    simp only [tileGridZoom, tileGridZoomDecrease, tileGridMinZoomDecrease,
      tileGridMaxZoomDecrease, if_neg h1, if_pos h, TileGrid.mk.injEq]
    exact ⟨trivial, trivial, Int.ceil_sub_one _, Int.ceil_sub_one _⟩
  · norm_num [tileGridZoom, tileGridZoomIncrease, tileGridMinZoomIncrease,
      tileGridMaxZoomIncrease]
  · norm_num [tileGridZoom, tileGridZoomDecrease, tileGridMinZoomDecrease,
      tileGridMaxZoomDecrease]

/-- Witness for claim C4 at a concrete input: remapping `TileGrid(1,1,1,1)`
from zoom 0 to zoom 2 matches the claimed formulas. -/
theorem claim_C4_witness :
    tileGridZoom ⟨1, 1, 1, 1⟩ 0 2 = ⟨4, 4, 7, 7⟩ ∧
    tileGridZoom ⟨4, 4, 7, 7⟩ 2 0 = ⟨1, 1, 1, 1⟩ := by
  have h := claim_C4 ⟨1, 1, 1, 1⟩ 0 2 (by decide) (by decide) (by decide) (by decide)
  exact ⟨h.2.2.1, h.2.2.2⟩

/-! ## Stored zoom-level selection (claim C1)

`GeoPackageTileRetriever.determineGeoPackageZoomLevel`: the requested
real-world tile width `w` (computed by the reprojection collaborator from
the request box corners) is compared against the tile dao's stored widths
in index order; the loop body overwrites the candidate each time
`tileWidth <= width || difference <= tolerance` holds, with
`tolerance = .001 * tileWidth`, recording `maxZoom - i`. -/

/-- The loop condition of `determineGeoPackageZoomLevel` at one stored
width: `tileWidth <= width || Math.abs(width - tileWidth) <= .001 * tileWidth`. -/
def qualifiesForWidth (w tileWidth : ℚ) : Prop :=
  tileWidth ≤ w ∨ |w - tileWidth| ≤ 1/1000 * tileWidth

instance (w tileWidth : ℚ) : Decidable (qualifiesForWidth w tileWidth) := by
  unfold qualifiesForWidth; infer_instance

/-- The `for` loop of `determineGeoPackageZoomLevel`: `i` is the current
index, the accumulator holds the latest `gpZoom` assignment. -/
def determineZoomLoop (w : ℚ) (maxZoom : ℤ) :
    List ℚ → ℤ → Option ℤ → Option ℤ
  | [], _, gpZoom => gpZoom
  | tileWidth :: rest, i, gpZoom =>
      determineZoomLoop w maxZoom rest (i + 1)
        (if qualifiesForWidth w tileWidth then some (maxZoom - i) else gpZoom)

/-- `determineGeoPackageZoomLevel` with the requested width already
computed: scan `widths` from index 0 with no initial candidate. -/
def determineGeoPackageZoomLevel (widths : List ℚ) (maxZoom : ℤ) (w : ℚ) :
    Option ℤ :=
  determineZoomLoop w maxZoom widths 0 none

/-- The selection rule as the claim words it: the largest zoom level
(`maxZoom - i` for the smallest index `i`, widths being stored in
ascending order of width and descending order of zoom) whose stored width
is ≥ `w` or within `0.1%` of the stored width. -/
def claimedZoomScan (w : ℚ) (maxZoom : ℤ) : List ℚ → ℤ → Option ℤ
  | [], _ => none
  | tileWidth :: rest, i =>
      if w ≤ tileWidth ∨ |w - tileWidth| ≤ 1/1000 * tileWidth then
        some (maxZoom - i)
      else claimedZoomScan w maxZoom rest (i + 1)

/-- The claim's selection rule applied to a width list. -/
def claimedZoomLevel (widths : List ℚ) (maxZoom : ℤ) (w : ℚ) : Option ℤ :=
  claimedZoomScan w maxZoom widths 0

/-- Counterexample to claim C1: with stored widths `[1, 2, 4]` (zooms 2,
1, 0) and requested width `5/2`, the code returns zoom 1 (stored width 2,
the largest width ≤ w), while the claim's rule — the largest zoom whose
stored width is ≥ w or within 0.1% — returns zoom 0 (stored width 4). -/
theorem claim_C1_counterexample :
    determineGeoPackageZoomLevel [1, 2, 4] 2 (5/2) = some 1 ∧
    claimedZoomLevel [1, 2, 4] 2 (5/2) = some 0 := by
  constructor
  · show determineZoomLoop (5/2) 2 [1, 2, 4] 0 none = some 1
    norm_num [determineZoomLoop, qualifiesForWidth, abs_le]
  · show claimedZoomScan (5/2) 2 [1, 2, 4] 0 = some 0
    norm_num [claimedZoomScan, abs_le]

/-- Helper: a scan over widths none of which qualifies leaves the
accumulator unchanged. -/
theorem determineZoomLoop_of_none (w : ℚ) (maxZoom : ℤ) (l : List ℚ)
    (hnone : ∀ tw ∈ l, ¬ qualifiesForWidth w tw) :
    ∀ (i : ℤ) (acc : Option ℤ), determineZoomLoop w maxZoom l i acc = acc := by
  induction l with
  | nil => intro i acc; rfl
  | cons tw rest ih =>
      intro i acc
      have h1 : ¬ qualifiesForWidth w tw := hnone tw (List.mem_cons_self tw rest)
      have h2 : ∀ tw' ∈ rest, ¬ qualifiesForWidth w tw' := fun tw' hm =>
        hnone tw' (List.mem_cons_of_mem tw hm)
      simp only [determineZoomLoop, if_neg h1]
      exact ih h2 (i + 1) acc

/-- Claim C1, amended: the scan returns `maxZoom − i` for the LAST index
`i` whose stored width `tw` satisfies `tw ≤ w` or `|w − tw| ≤ 0.001·tw`
(with ascending widths this is the largest qualifying stored width, i.e.
the smallest — coarsest — qualifying zoom level, not the largest), and no
zoom level at all when no stored width qualifies. -/
theorem claim_C1_amended :
    (∀ (widths : List ℚ) (maxZoom : ℤ) (w : ℚ),
      (∀ tw ∈ widths, ¬ qualifiesForWidth w tw) →
      determineGeoPackageZoomLevel widths maxZoom w = none) ∧
    (∀ (pre post : List ℚ) (tw : ℚ) (maxZoom : ℤ) (w : ℚ),
      qualifiesForWidth w tw →
      (∀ tw' ∈ post, ¬ qualifiesForWidth w tw') →
      determineGeoPackageZoomLevel (pre ++ tw :: post) maxZoom w =
        some (maxZoom - pre.length)) := by
  constructor
  · intro widths maxZoom w hnone
    exact determineZoomLoop_of_none w maxZoom widths hnone 0 none
  · intro pre post tw maxZoom w hq hpost
    show determineZoomLoop w maxZoom (pre ++ tw :: post) 0 none =
      some (maxZoom - pre.length)
    have key : ∀ (pre' : List ℚ) (i : ℤ) (acc : Option ℤ),
        determineZoomLoop w maxZoom (pre' ++ tw :: post) i acc =
          some (maxZoom - (i + pre'.length)) := by
      intro pre'
      induction pre' with
      | nil =>
          intro i acc
          simp only [List.nil_append, determineZoomLoop, if_pos hq,
            List.length_nil]
          rw [determineZoomLoop_of_none w maxZoom post hpost]
          norm_num
      | cons p rest ih =>
          intro i acc
          simp only [List.cons_append, determineZoomLoop, List.length_cons,
            List.append_eq]
          rw [ih (i + 1)]
          congr 1
          push_cast
          ring
    rw [key pre 0 none]
    norm_num

/-- Witness for the amended claim C1 at the counterexample's input: width
2 at index 1 is the last qualifying stored width, so zoom `2 − 1 = 1` is
returned. -/
theorem claim_C1_witness :
    determineGeoPackageZoomLevel ([1] ++ 2 :: [4]) 2 (5/2) = some (2 - ([1] : List ℚ).length) := by
  refine claim_C1_amended.2 [1] [4] 2 2 (5/2) ?_ ?_
  · unfold qualifiesForWidth; norm_num
  · intro tw' hm
    simp only [List.mem_singleton] at hm
    subst hm
    unfold qualifiesForWidth
    rw [abs_le]
    norm_num

/-! ## Tile column and row of a coordinate (claim C2)

Two families exist in the source: `getTileColumn`/`getTileRow` use
`Math.round` in the interior case, while
`getTileColumnWithTotalBoundingBox`/`getRowWithTotalBoundingBox` use the
`~~` (ToInt32) truncation, with different boundary comparisons for the
row. -/

/-- `getTileColumn(totalBox, matrixWidth, longitude)`: `-1` below the box,
`matrixWidth` at or past its right edge, otherwise
`Math.round((longitude - minX) / tileWidth)`. -/
def getTileColumn (totalBox : BoundingBox) (matrixWidth longitude : ℚ) : ℚ :=
  let minX := totalBox.minLongitude
  let maxX := totalBox.maxLongitude
  if longitude < minX then -1
  else if maxX ≤ longitude then matrixWidth
  else
    let matrixWidthMeters := totalBox.maxLongitude - totalBox.minLongitude
    let tileWidth := matrixWidthMeters / matrixWidth
    ((jsRound ((longitude - minX) / tileWidth) : ℤ) : ℚ)

/-- `getTileRow(totalBox, matrixHeight, latitude)`: `matrixHeight` when
`latitude <= minY`, `-1` when `latitude > maxY`, otherwise
`Math.round((maxY - latitude) / tileHeight)`. -/
def getTileRow (totalBox : BoundingBox) (matrixHeight latitude : ℚ) : ℚ :=
  let minY := totalBox.minLatitude
  let maxY := totalBox.maxLatitude
  if latitude ≤ minY then matrixHeight
  else if maxY < latitude then -1
  else
    let matrixHeightMeters := totalBox.maxLatitude - totalBox.minLatitude
    let tileHeight := matrixHeightMeters / matrixHeight
    ((jsRound ((maxY - latitude) / tileHeight) : ℤ) : ℚ)

/-- `getTileColumnWithTotalBoundingBox`: as `getTileColumn` but the
interior case is `~~((longitude - minX) / tileWidth)`. -/
def getTileColumnWithTotalBoundingBox (webMercatorTotalBox : BoundingBox)
    (matrixWidth longitude : ℚ) : ℚ :=
  let minX := webMercatorTotalBox.minLongitude
  let maxX := webMercatorTotalBox.maxLongitude
  if longitude < minX then -1
  else if maxX ≤ longitude then matrixWidth
  else
    let matrixWidthMeters := maxX - minX
    let tileWidth := matrixWidthMeters / matrixWidth
    ((jsToInt32 ((longitude - minX) / tileWidth) : ℤ) : ℚ)

/-- `getRowWithTotalBoundingBox`: `matrixHeight` when `latitude < minY`,
`-1` when `latitude >= maxY`, otherwise
`~~((maxY - latitude) / tileHeight)`. -/
def getRowWithTotalBoundingBox (webMercatorTotalBox : BoundingBox)
    (matrixHeight latitude : ℚ) : ℚ :=
  let minY := webMercatorTotalBox.minLatitude
  let maxY := webMercatorTotalBox.maxLatitude
  if latitude < minY then matrixHeight
  else if maxY ≤ latitude then -1
  else
    let matrixHeightMeters := maxY - minY
    let tileHeight := matrixHeightMeters / matrixHeight
    ((jsToInt32 ((maxY - latitude) / tileHeight) : ℤ) : ℚ)

/-- The 32-bit wrap is the identity on the signed 32-bit range. -/
theorem toInt32_eq_self (n : ℤ) (h1 : -(2 ^ 31) ≤ n) (h2 : n < 2 ^ 31) :
    toInt32 n = n := by
  unfold toInt32
  rw [Int.emod_eq_of_lt (by omega) (by omega)]
  omega

/-- On `[0, 2^31)` the JavaScript `~~` operator is the floor. -/
theorem jsToInt32_eq_floor (q : ℚ) (h0 : 0 ≤ q) (h1 : q < 2 ^ 31) :
    jsToInt32 q = ⌊q⌋ := by
  unfold jsToInt32 truncTowardZero
  rw [if_pos h0]
  refine toInt32_eq_self _ ?_ ?_
  · exact le_trans (by norm_num) (Int.floor_nonneg.mpr h0)
  · exact Int.floor_lt.mpr (by push_cast; exact h1)

/-- Counterexample to claim C2: `getTileColumn` uses `Math.round`, not the
claimed floor: with total box `[0,4]×[0,4]`, matrix width 4 (tile width 1)
and longitude `3/4`, the code returns column 1 while the claimed
`floor((longitude-minX)/tileWidth)` is 0. -/
theorem claim_C2_counterexample :
    getTileColumn ⟨0, 4, 0, 4⟩ 4 (3/4) = 1 ∧
    ((⌊(((3 : ℚ)/4) - 0) / (((4 : ℚ) - 0) / 4)⌋ : ℤ) : ℚ) = 0 := by
  constructor
  · norm_num [getTileColumn, jsRound]
  · norm_num

/-- Claim C2, amended: the claimed floor-based mapping is computed by
`getTileColumnWithTotalBoundingBox` and `getRowWithTotalBoundingBox` (for
matrix sizes in `[1, 2^31)`, where the ToInt32 truncation equals the
floor); `getTileColumn` and `getTileRow` instead apply `Math.round`
(`⌊v + 1/2⌋`) in the interior case, and `getTileRow` sends
`latitude ≤ minY` to `matrixHeight` and `latitude > maxY` to `-1`. -/
theorem claim_C2_amended (box : BoundingBox) (mw mh lon lat : ℚ)
    (hx : box.minLongitude < box.maxLongitude)
    (hy : box.minLatitude < box.maxLatitude)
    (hmw1 : 1 ≤ mw) (hmw2 : mw < 2 ^ 31)
    (hmh1 : 1 ≤ mh) (hmh2 : mh < 2 ^ 31) :
    (getTileColumnWithTotalBoundingBox box mw lon =
      if lon < box.minLongitude then -1
      else if box.maxLongitude ≤ lon then mw
      else ((⌊(lon - box.minLongitude) /
        ((box.maxLongitude - box.minLongitude) / mw)⌋ : ℤ) : ℚ)) ∧
    (getRowWithTotalBoundingBox box mh lat =
      if lat < box.minLatitude then mh
      else if box.maxLatitude ≤ lat then -1
      else ((⌊(box.maxLatitude - lat) /
        ((box.maxLatitude - box.minLatitude) / mh)⌋ : ℤ) : ℚ)) ∧
    (getTileColumn box mw lon =
      if lon < box.minLongitude then -1
      else if box.maxLongitude ≤ lon then mw
      else ((jsRound ((lon - box.minLongitude) /
        ((box.maxLongitude - box.minLongitude) / mw)) : ℤ) : ℚ)) ∧
    (getTileRow box mh lat =
      if lat ≤ box.minLatitude then mh
      else if box.maxLatitude < lat then -1
      else ((jsRound ((box.maxLatitude - lat) /
        ((box.maxLatitude - box.minLatitude) / mh)) : ℤ) : ℚ)) := by
  have hmw0 : (0 : ℚ) < mw := lt_of_lt_of_le one_pos hmw1
  have hmh0 : (0 : ℚ) < mh := lt_of_lt_of_le one_pos hmh1
  have hwpos : (0 : ℚ) < (box.maxLongitude - box.minLongitude) / mw :=
    div_pos (by linarith) hmw0
  have hhpos : (0 : ℚ) < (box.maxLatitude - box.minLatitude) / mh :=
    div_pos (by linarith) hmh0
  refine ⟨?_, ?_, rfl, rfl⟩
  · unfold getTileColumnWithTotalBoundingBox
    by_cases h1 : lon < box.minLongitude
    · simp [h1]
    · by_cases h2 : box.maxLongitude ≤ lon
      · simp [h1, h2]
      · simp only [h1, h2, if_false]
        congr 1
        set t := (lon - box.minLongitude) /
          ((box.maxLongitude - box.minLongitude) / mw) with ht
        have h0t : 0 ≤ t := div_nonneg (by linarith [not_lt.mp h1]) hwpos.le
        have htw : t < mw := by
          rw [ht, div_div_eq_mul_div, div_lt_iff₀ (by linarith)]
          have : lon - box.minLongitude < box.maxLongitude - box.minLongitude := by
            linarith [not_le.mp h2]
          calc (lon - box.minLongitude) * mw
              < (box.maxLongitude - box.minLongitude) * mw := by
                exact mul_lt_mul_of_pos_right this hmw0
            _ = mw * (box.maxLongitude - box.minLongitude) := mul_comm _ _
        exact jsToInt32_eq_floor t h0t (lt_trans htw hmw2)
  · unfold getRowWithTotalBoundingBox
    by_cases h1 : lat < box.minLatitude
    · simp [h1]
    · by_cases h2 : box.maxLatitude ≤ lat
      · simp [h1, h2]
      · simp only [h1, h2, if_false]
        congr 1
        set t := (box.maxLatitude - lat) /
          ((box.maxLatitude - box.minLatitude) / mh) with ht
        have h0t : 0 ≤ t := div_nonneg (by linarith [not_le.mp h2]) hhpos.le
        have htw : t ≤ mh := by
          rw [ht, div_div_eq_mul_div, div_le_iff₀ (by linarith)]
          have : box.maxLatitude - lat ≤ box.maxLatitude - box.minLatitude := by
            linarith [not_lt.mp h1]
          calc (box.maxLatitude - lat) * mh
              ≤ (box.maxLatitude - box.minLatitude) * mh := by
                exact mul_le_mul_of_nonneg_right this hmh0.le
            _ = mh * (box.maxLatitude - box.minLatitude) := mul_comm _ _
        exact jsToInt32_eq_floor t h0t (lt_of_le_of_lt htw hmh2)

/-- Witness for the amended claim C2 at a concrete input: with the
truncating variant, longitude `3/4` of the `[0,4]` box at matrix width 4
lands in column 0 (the floor), and latitude `1/2` lands in row 3. -/
theorem claim_C2_witness :
    getTileColumnWithTotalBoundingBox ⟨0, 4, 0, 4⟩ 4 (3/4) = 0 ∧
    getRowWithTotalBoundingBox ⟨0, 4, 0, 4⟩ 4 (1/2) = 3 := by
  have h := claim_C2_amended ⟨0, 4, 0, 4⟩ 4 4 (3/4) (1/2)
    (by norm_num) (by norm_num) (by norm_num) (by norm_num) (by norm_num)
    (by norm_num)
  constructor
  · rw [h.1]; norm_num
  · rw [h.2.1]; norm_num

/-! ## Pixel mapping (claims C6 and C7)

`getXPixel`, `getYPixel`, `getLongitudeFromPixel`, `getLatitudeFromPixel`.
The divisor of each leading division can be zero (degenerate box, zero
raster size), so these divisions are modelled with `jsDiv`. -/

/-- `getXPixel(width, boundingBox, longitude) =
((longitude - minLongitude) / boundingBox.width) * width`. -/
def getXPixel (width : ℚ) (boundingBox : BoundingBox) (longitude : ℚ) :
    Option ℚ :=
  (jsDiv (longitude - boundingBox.minLongitude) boundingBox.width).map
    (fun percentage => percentage * width)

/-- `getLongitudeFromPixel(width, boundingBox, tileBoundingBox, pixel) =
(pixel / width) * tileBoundingBox.width + boundingBox.minLongitude`. -/
def getLongitudeFromPixel (width : ℚ) (boundingBox tileBoundingBox : BoundingBox)
    (pixel : ℚ) : Option ℚ :=
  (jsDiv pixel width).map
    (fun percentage => percentage * tileBoundingBox.width + boundingBox.minLongitude)

/-- `getYPixel(height, boundingBox, latitude) =
((maxLatitude - latitude) / boundingBox.height) * height`. -/
def getYPixel (height : ℚ) (boundingBox : BoundingBox) (latitude : ℚ) :
    Option ℚ :=
  (jsDiv (boundingBox.maxLatitude - latitude) boundingBox.height).map
    (fun percentage => percentage * height)

/-- `getLatitudeFromPixel(height, boundingBox, tileBoundingBox, pixel) =
boundingBox.maxLatitude - (pixel / height) * tileBoundingBox.height`. -/
def getLatitudeFromPixel (height : ℚ) (boundingBox tileBoundingBox : BoundingBox)
    (pixel : ℚ) : Option ℚ :=
  (jsDiv pixel height).map
    (fun percentage => boundingBox.maxLatitude - percentage * tileBoundingBox.height)

/-- Counterexample to claim C6: `getXPixel` on a zero-width box divides by
zero and produces no finite pixel value (`none` models the non-finite
JavaScript result), instead of substituting a smallest positive divisor. -/
theorem claim_C6_counterexample :
    getXPixel 256 ⟨3, 3, 0, 10⟩ 5 = none := by
  unfold getXPixel jsDiv BoundingBox.width
  norm_num

/-- Claim C6, amended: `getXPixel` and `getYPixel` contain no
degenerate-range guard: whenever `maxLongitude = minLongitude` (resp.
`maxLatitude = minLatitude`) they divide by the zero box width (height)
and return no finite pixel value; the smallest-positive-value substitution
described by the claim appears only in `getZoomLevel`, not in the pixel
mapping. -/
theorem claim_C6_amended (b : BoundingBox) (w lon h lat : ℚ) :
    (b.maxLongitude = b.minLongitude → getXPixel w b lon = none) ∧
    (b.maxLatitude = b.minLatitude → getYPixel h b lat = none) := by
  constructor
  · intro hdeg
    unfold getXPixel jsDiv BoundingBox.width
    rw [if_pos (by rw [hdeg]; ring)]
    rfl
  · intro hdeg
    unfold getYPixel jsDiv BoundingBox.height
    rw [if_pos (by rw [hdeg]; ring)]
    rfl

/-- Witness for the amended claim C6 at a concrete degenerate box. -/
theorem claim_C6_witness :
    getXPixel 256 ⟨3, 3, 0, 10⟩ 5 = none ∧
    getYPixel 256 ⟨0, 10, 7, 7⟩ 5 = none := by
  have h := claim_C6_amended ⟨3, 3, 0, 10⟩ 256 5 256 5
  have h2 := claim_C6_amended ⟨0, 10, 7, 7⟩ 256 5 256 5
  exact ⟨h.1 rfl, h2.2 rfl⟩

/-- Claim C7: on a box of positive width and height with a positive raster
size, pixel mapping and its inverse round-trip exactly (the claim's
floating-point tolerance is subsumed by the exact rational model). -/
theorem claim_C7 (b : BoundingBox) (w h lon lat : ℚ)
    (hbw : 0 < b.width) (hbh : 0 < b.height) (hw : 0 < w) (hh : 0 < h) :
    (getXPixel w b lon).bind (getLongitudeFromPixel w b b) = some lon ∧
    (getYPixel h b lat).bind (getLatitudeFromPixel h b b) = some lat := by
  constructor
  · unfold getXPixel getLongitudeFromPixel jsDiv
    rw [if_neg (ne_of_gt hbw)]
    simp only [Option.map_some, Option.bind_some, if_neg (ne_of_gt hw)]
    field_simp
    ring
  · unfold getYPixel getLatitudeFromPixel jsDiv
    rw [if_neg (ne_of_gt hbh)]
    simp only [Option.map_some, Option.bind_some, if_neg (ne_of_gt hh)]
    field_simp
    ring

/-- Witness for claim C7 at a concrete input: longitude 3 of the box
`[0,10]×[0,10]` maps to pixel 76.8 of a 256-wide raster and back to 3. -/
theorem claim_C7_witness :
    (getXPixel 256 ⟨0, 10, 0, 10⟩ 3).bind
      (getLongitudeFromPixel 256 ⟨0, 10, 0, 10⟩ ⟨0, 10, 0, 10⟩) = some 3 ∧
    (getYPixel 256 ⟨0, 10, 0, 10⟩ 4).bind
      (getLatitudeFromPixel 256 ⟨0, 10, 0, 10⟩ ⟨0, 10, 0, 10⟩) = some 4 := by
  refine claim_C7 ⟨0, 10, 0, 10⟩ 256 256 3 4 ?_ ?_ ?_ ?_ <;>
    norm_num [BoundingBox.width, BoundingBox.height]

/-! ## Square-world (XYZ) tile addressing (claims C3 and C10)

`tilesPerSide` uses `Math.pow(2, zoom)` (exact for integer zoom);
`tilesPerSideWithZoom` uses the JavaScript expression `1 << zoom`, whose
operands are converted to signed 32-bit integers, so the shift count is
taken modulo 32 and the result wraps.  The `while` loops of
`getWebMercatorBoundingBoxFromXYZ` that wrap `x` into
`[0, tilesPerSide)` terminate exactly when `tilesPerSide` is positive and
then compute the euclidean remainder; a non-positive `tilesPerSide`
(zoom ≡ 31 mod 32) makes them loop forever, modelled as `none`.  The
`options` argument is omitted, so `meterBuffer = 0`. -/

/-- `tilesPerSide(zoom) = Math.pow(2, zoom)`. -/
def tilesPerSide (zoom : ℕ) : ℚ := 2 ^ zoom

/-- `tilesPerSideWithZoom(zoom) = 1 << zoom` with JavaScript 32-bit
semantics: shift count modulo 32, result wrapped to signed 32 bits. -/
def tilesPerSideWithZoom (zoom : ℕ) : ℤ := toInt32 (2 ^ (zoom % 32))

/-- `tileSizeWithTilesPerSide(tilesPerSide) =
(2 * WEB_MERCATOR_HALF_WORLD_WIDTH) / tilesPerSide`. -/
def tileSizeWithTilesPerSide (tilesPerSide : ℚ) : ℚ :=
  2 * WEB_MERCATOR_HALF_WORLD_WIDTH / tilesPerSide

/-- `getWebMercatorBoundingBoxFromXYZ(x, y, zoom)` without options
(`meterBuffer = 0`): wrap `x` into `[0, tilesPerSide)`, compute the four
edges, clamp them to the world, and build
`new BoundingBox(minLon, maxLon, minLat, maxLat)`.  `none` models the
non-terminating wrap loops when `tilesPerSide ≤ 0`. -/
def getWebMercatorBoundingBoxFromXYZ (x y : ℤ) (zoom : ℕ) : Option BoundingBox :=
  let tiles := tilesPerSideWithZoom zoom
  if 0 < tiles then
    let tileSize := tileSizeWithTilesPerSide ((tiles : ℤ) : ℚ)
    let xw : ℚ := ((x % tiles : ℤ) : ℚ)
    let minLon := max (-WEB_MERCATOR_HALF_WORLD_WIDTH)
      (-WEB_MERCATOR_HALF_WORLD_WIDTH + xw * tileSize)
    let maxLon := min WEB_MERCATOR_HALF_WORLD_WIDTH
      (-WEB_MERCATOR_HALF_WORLD_WIDTH + (xw + 1) * tileSize)
    let minLat := max (-WEB_MERCATOR_HALF_WORLD_WIDTH)
      (WEB_MERCATOR_HALF_WORLD_WIDTH - ((y : ℚ) + 1) * tileSize)
    let maxLat := min WEB_MERCATOR_HALF_WORLD_WIDTH
      (WEB_MERCATOR_HALF_WORLD_WIDTH - (y : ℚ) * tileSize)
    some ⟨minLon, maxLon, minLat, maxLat⟩
  else none

/-- `webMercatorTileBox(webMercatorBoundingBox, zoom)`: clip the box to
the world, then take `floor` for the lower tile indices and
`max(0, ceil(·) − 1)` for the upper ones, returning
`new BoundingBox(minX, maxX, minY, maxY)` of tile indices. -/
def webMercatorTileBox (webMercatorBoundingBox : BoundingBox) (zoom : ℕ) :
    BoundingBox :=
  let tiles := tilesPerSideWithZoom zoom
  let tileSize := tileSizeWithTilesPerSide ((tiles : ℤ) : ℚ)
  let minLonClip := max (-WEB_MERCATOR_HALF_WORLD_WIDTH)
    webMercatorBoundingBox.minLongitude
  let maxLonClip := min WEB_MERCATOR_HALF_WORLD_WIDTH
    webMercatorBoundingBox.maxLongitude
  let minLatClip := max (-WEB_MERCATOR_HALF_WORLD_WIDTH)
    webMercatorBoundingBox.minLatitude
  let maxLatClip := min WEB_MERCATOR_HALF_WORLD_WIDTH
    webMercatorBoundingBox.maxLatitude
  let minX : ℤ := ⌊(minLonClip + WEB_MERCATOR_HALF_WORLD_WIDTH) / tileSize⌋
  let maxX : ℤ := max 0 (⌈(maxLonClip + WEB_MERCATOR_HALF_WORLD_WIDTH) / tileSize⌉ - 1)
  let minY : ℤ := ⌊(WEB_MERCATOR_HALF_WORLD_WIDTH - maxLatClip) / tileSize⌋
  let maxY : ℤ := max 0 (⌈(WEB_MERCATOR_HALF_WORLD_WIDTH - minLatClip) / tileSize⌉ - 1)
  ⟨(minX : ℚ), (maxX : ℚ), (minY : ℚ), (maxY : ℚ)⟩

/-- For zoom levels up to 30 the 32-bit shift agrees with `2^zoom`. -/
theorem tilesPerSideWithZoom_eq_pow (zoom : ℕ) (hz : zoom ≤ 30) :
    tilesPerSideWithZoom zoom = 2 ^ zoom := by
  unfold tilesPerSideWithZoom
  rw [Nat.mod_eq_of_lt (by omega)]
  have h1 : (2 : ℤ) ^ zoom ≤ 2 ^ 30 := pow_le_pow_right₀ (by norm_num) hz
  have h2 : (0 : ℤ) < 2 ^ zoom := by positivity
  exact toInt32_eq_self _ (le_trans (by norm_num) h2.le)
    (lt_of_le_of_lt h1 (by norm_num))

/-- The 32-bit shift is either the true power of two (shift count ≤ 30)
or the negative wrap `-(2^31)` (shift count 31). -/
theorem tilesPerSideWithZoom_char (zoom : ℕ) :
    (zoom % 32 ≤ 30 ∧ tilesPerSideWithZoom zoom = 2 ^ (zoom % 32)) ∨
    (zoom % 32 = 31 ∧ tilesPerSideWithZoom zoom = -(2 ^ 31)) := by
  rcases Nat.lt_or_ge (zoom % 32) 31 with h | h
  · left
    refine ⟨by omega, ?_⟩
    unfold tilesPerSideWithZoom
    have h1 : (2 : ℤ) ^ (zoom % 32) ≤ 2 ^ 30 := pow_le_pow_right₀ (by norm_num) (by omega)
    have h2 : (0 : ℤ) < 2 ^ (zoom % 32) := by positivity
    exact toInt32_eq_self _ (le_trans (by norm_num) h2.le)
      (lt_of_le_of_lt h1 (by norm_num))
  · right
    have h31 : zoom % 32 = 31 := by omega
    refine ⟨h31, ?_⟩
    unfold tilesPerSideWithZoom toInt32
    rw [h31]
    decide

/-- Claim C10: the bounding box of an XYZ tile only depends on the column
modulo the number of tiles per side, because the wrap loops reduce `x`
before the bounds are computed (both sides also diverge together at the
degenerate zoom levels where the 32-bit shift goes negative). -/
theorem claim_C10 (zoom : ℕ) (x y : ℤ) :
    getWebMercatorBoundingBoxFromXYZ x y zoom =
      getWebMercatorBoundingBoxFromXYZ (x % 2 ^ zoom) y zoom := by
  unfold getWebMercatorBoundingBoxFromXYZ
  by_cases hpos : 0 < tilesPerSideWithZoom zoom
  · rcases tilesPerSideWithZoom_char zoom with ⟨hle, heq⟩ | ⟨h31, heq⟩
    · have hdvd : tilesPerSideWithZoom zoom ∣ 2 ^ zoom := by
        rw [heq]
        exact pow_dvd_pow 2 (Nat.mod_le zoom 32)
      simp only [if_pos hpos, Int.emod_emod_of_dvd x hdvd]
    · rw [heq] at hpos
      norm_num at hpos
  · simp only [if_neg hpos]

/-- Helper for claim C3: the tile size at a true power-of-two tile count
is positive. -/
theorem tileSize_pos (n : ℚ) (hn : 0 < n) : 0 < tileSizeWithTilesPerSide n := by
  unfold tileSizeWithTilesPerSide WEB_MERCATOR_HALF_WORLD_WIDTH
  positivity

/-- Claim C3, amended: `tilesPerSide(z) = 2^z` for every `z ≥ 0`, and for
every `0 ≤ z ≤ 30` and `0 ≤ x, y < 2^z` the web-mercator bounding box of
the XYZ tile `(x, y, z)` followed by `webMercatorTileBox` at the same
zoom recovers exactly the single-tile grid `minX = maxX = x`,
`minY = maxY = y`; for `z ≥ 31` the round trip fails because
`tilesPerSideWithZoom` computes `1 << z` with 32-bit semantics. -/
theorem claim_C3_amended :
    (∀ zoom : ℕ, tilesPerSide zoom = 2 ^ zoom) ∧
    (∀ (zoom : ℕ) (x y : ℤ), zoom ≤ 30 →
      0 ≤ x → x < 2 ^ zoom → 0 ≤ y → y < 2 ^ zoom →
      (getWebMercatorBoundingBoxFromXYZ x y zoom).map
        (fun b => webMercatorTileBox b zoom) =
        some ⟨(x : ℚ), (x : ℚ), (y : ℚ), (y : ℚ)⟩) := by
  constructor
  · intro zoom; rfl
  · intro zoom x y hz hx0 hx1 hy0 hy1
    have hn : tilesPerSideWithZoom zoom = 2 ^ zoom :=
      tilesPerSideWithZoom_eq_pow zoom hz
    have hn0 : (0 : ℤ) < 2 ^ zoom := by positivity
    have hnpos : 0 < tilesPerSideWithZoom zoom := by rw [hn]; exact hn0
    have hH : (0 : ℚ) < WEB_MERCATOR_HALF_WORLD_WIDTH := by
      norm_num [WEB_MERCATOR_HALF_WORLD_WIDTH]
    have hcast : ((tilesPerSideWithZoom zoom : ℤ) : ℚ) = (2 : ℚ) ^ zoom := by
      rw [hn]; push_cast; ring
    have hts0 : 0 < tileSizeWithTilesPerSide ((tilesPerSideWithZoom zoom : ℤ) : ℚ) := by
      rw [hcast]; exact tileSize_pos _ (by positivity)
    set H := WEB_MERCATOR_HALF_WORLD_WIDTH with hHdef
    set ts := tileSizeWithTilesPerSide ((tilesPerSideWithZoom zoom : ℤ) : ℚ) with htsdef
    have hpowts : (2 : ℚ) ^ zoom * ts = 2 * H := by
      rw [htsdef, hcast]
      unfold tileSizeWithTilesPerSide
      rw [← hHdef]
      field_simp
    have hxmod : x % tilesPerSideWithZoom zoom = x := by
      rw [hn]; exact Int.emod_eq_of_lt hx0 hx1
    have hxq0 : (0 : ℚ) ≤ (x : ℚ) := by exact_mod_cast hx0
    have hxq1 : (x : ℚ) + 1 ≤ 2 ^ zoom := by
      have : x + 1 ≤ 2 ^ zoom := hx1
      exact_mod_cast this
    have hyq0 : (0 : ℚ) ≤ (y : ℚ) := by exact_mod_cast hy0
    have hyq1 : (y : ℚ) + 1 ≤ 2 ^ zoom := by
      have : y + 1 ≤ 2 ^ zoom := hy1
      exact_mod_cast this
    -- edge bounds of the tile box
    have hxu : ((x : ℚ) + 1) * ts ≤ 2 * H := by
      calc ((x : ℚ) + 1) * ts ≤ (2 : ℚ) ^ zoom * ts :=
            mul_le_mul_of_nonneg_right hxq1 hts0.le
        _ = 2 * H := hpowts
    have hyu : ((y : ℚ) + 1) * ts ≤ 2 * H := by
      calc ((y : ℚ) + 1) * ts ≤ (2 : ℚ) ^ zoom * ts :=
            mul_le_mul_of_nonneg_right hyq1 hts0.le
        _ = 2 * H := hpowts
    have hxl : 0 ≤ (x : ℚ) * ts := mul_nonneg hxq0 hts0.le
    have hyl : 0 ≤ (y : ℚ) * ts := mul_nonneg hyq0 hts0.le
    -- step 1: the XYZ bounding box with all clamps resolved
    have hbox : getWebMercatorBoundingBoxFromXYZ x y zoom =
        some ⟨-H + (x : ℚ) * ts, -H + ((x : ℚ) + 1) * ts,
              H - ((y : ℚ) + 1) * ts, H - (y : ℚ) * ts⟩ := by
      unfold getWebMercatorBoundingBoxFromXYZ
      rw [if_pos hnpos, hxmod, ← htsdef, ← hHdef]
      dsimp only
      congr 1
      rw [show max (-H) (-H + (x : ℚ) * ts) = -H + (x : ℚ) * ts from
          max_eq_right (by linarith),
        show min H (-H + ((x : ℚ) + 1) * ts) = -H + ((x : ℚ) + 1) * ts from
          min_eq_right (by linarith),
        show max (-H) (H - ((y : ℚ) + 1) * ts) = H - ((y : ℚ) + 1) * ts from
          max_eq_right (by linarith),
        show min H (H - (y : ℚ) * ts) = H - (y : ℚ) * ts from
          min_eq_right (by linarith)]
    -- step 2: the tile box of that bounding box is the single tile (x, y)
    have htile : webMercatorTileBox
        ⟨-H + (x : ℚ) * ts, -H + ((x : ℚ) + 1) * ts,
         H - ((y : ℚ) + 1) * ts, H - (y : ℚ) * ts⟩ zoom =
        ⟨(x : ℚ), (x : ℚ), (y : ℚ), (y : ℚ)⟩ := by
      simp only [webMercatorTileBox]
      rw [← htsdef, ← hHdef]
      rw [show max (-H) (-H + (x : ℚ) * ts) = -H + (x : ℚ) * ts from
          max_eq_right (by linarith),
        show min H (-H + ((x : ℚ) + 1) * ts) = -H + ((x : ℚ) + 1) * ts from
          min_eq_right (by linarith),
        show max (-H) (H - ((y : ℚ) + 1) * ts) = H - ((y : ℚ) + 1) * ts from
          max_eq_right (by linarith),
        show min H (H - (y : ℚ) * ts) = H - (y : ℚ) * ts from
          min_eq_right (by linarith)]
      rw [show -H + (x : ℚ) * ts + H = (x : ℚ) * ts by ring,
        show -H + ((x : ℚ) + 1) * ts + H = ((x : ℚ) + 1) * ts by ring,
        show H - (H - ((y : ℚ) + 1) * ts) = ((y : ℚ) + 1) * ts by ring,
        show H - (H - (y : ℚ) * ts) = (y : ℚ) * ts by ring]
      rw [mul_div_cancel_right₀ _ hts0.ne', mul_div_cancel_right₀ _ hts0.ne',
        mul_div_cancel_right₀ _ hts0.ne', mul_div_cancel_right₀ _ hts0.ne']
      rw [show ((x : ℚ) + 1) = ((x + 1 : ℤ) : ℚ) by push_cast; ring,
        show ((y : ℚ) + 1) = ((y + 1 : ℤ) : ℚ) by push_cast; ring]
      rw [Int.floor_intCast, Int.floor_intCast, Int.ceil_intCast, Int.ceil_intCast]
      rw [show x + 1 - 1 = x by ring, show y + 1 - 1 = y by ring]
      rw [max_eq_right hx0, max_eq_right hy0]
    rw [hbox]
    simp only [Option.map_some']
    rw [htile]

/-- Witness for the amended claim C3 at zoom 1, tile `(1, 0)`. -/
theorem claim_C3_witness :
    tilesPerSide 4 = 16 ∧
    (getWebMercatorBoundingBoxFromXYZ 1 0 1).map
      (fun b => webMercatorTileBox b 1) = some ⟨1, 1, 0, 0⟩ := by
  constructor
  · rw [claim_C3_amended.1 4]; norm_num
  · exact claim_C3_amended.2 1 1 0 (by norm_num) (by norm_num) (by norm_num)
      (by norm_num) (by norm_num)

/-- Counterexample to claim C3 at zoom 32: `1 << 32` is 1 in 32-bit
arithmetic, so tile `(1, 0)` is wrapped to column 0 and the round trip
returns the grid `(0, 0, 0, 0)` instead of recovering `x = 1`. -/
theorem claim_C3_counterexample :
    (getWebMercatorBoundingBoxFromXYZ 1 0 32).map
      (fun b => webMercatorTileBox b 32) = some ⟨0, 0, 0, 0⟩ ∧
    (getWebMercatorBoundingBoxFromXYZ 1 0 32).map
      (fun b => webMercatorTileBox b 32) ≠ some ⟨1, 1, 0, 0⟩ := by
  have hn : tilesPerSideWithZoom 32 = 1 := by
    unfold tilesPerSideWithZoom toInt32; decide
  have heval : (getWebMercatorBoundingBoxFromXYZ 1 0 32).map
      (fun b => webMercatorTileBox b 32) = some ⟨0, 0, 0, 0⟩ := by
    unfold getWebMercatorBoundingBoxFromXYZ webMercatorTileBox
    rw [hn]
    norm_num [tileSizeWithTilesPerSide, WEB_MERCATOR_HALF_WORLD_WIDTH]
  refine ⟨heval, ?_⟩
  rw [heval]
  intro hcontra
  have := Option.some.inj hcontra
  have h1 : (0 : ℚ) = 1 := congrArg BoundingBox.minLongitude this
  norm_num at h1

/-! ## Anti-meridian aware overlap (claims C5 and C9) -/

/-- Modelled from the spec: `BoundingBox.overlap(boundingBox, allowEmpty)`
(the BoundingBox class itself is not among the provided sources).  Per the
spec's bounding-box arithmetic: intersect component-wise
(`x1 = max(minX), y1 = max(minY), x2 = min(maxX), y2 = min(maxY)`), the
result is none if `x1 > x2` or `y1 > y2`; a degenerate (zero-width or
zero-height) box where the ranges touch is still returned — `allowEmpty`
is carried for signature fidelity and additionally documents the
degenerate case. -/
def BoundingBox.overlap (b : BoundingBox) (boundingBox : BoundingBox)
    (allowEmpty : Bool) : Option BoundingBox :=
  let x1 := max b.minLongitude boundingBox.minLongitude
  let y1 := max b.minLatitude boundingBox.minLatitude
  let x2 := min b.maxLongitude boundingBox.maxLongitude
  let y2 := min b.maxLatitude boundingBox.maxLatitude
  if x2 < x1 ∨ y2 < y1 then none else some ⟨x1, x2, y1, y2⟩

/-- The anti-meridian adjustment computed at the start of
`TileBoundingBoxUtils.overlap`: `±2·maxLongitude` when `maxLongitude > 0`
and the longitude ranges are disjoint across the anti-meridian, `0`
otherwise. -/
def overlapAdjustment (boundingBox boundingBox2 : BoundingBox)
    (maxLongitude : ℚ) : ℚ :=
  if 0 < maxLongitude then
    if boundingBox2.maxLongitude < boundingBox.minLongitude then
      maxLongitude * 2
    else if boundingBox.maxLongitude < boundingBox2.minLongitude then
      maxLongitude * (-2)
    else 0
  else 0

/-- `TileBoundingBoxUtils.overlap(boundingBox, boundingBox2, allowEmpty,
maxLongitude)`: when the adjustment is nonzero, `bbox2` is re-bound to
`boundingBox2.copy()` and the two longitude setters shift the copy; the
(possibly shifted) second box is then intersected with the first. -/
def overlap (boundingBox boundingBox2 : BoundingBox) (allowEmpty : Bool)
    (maxLongitude : ℚ) : Option BoundingBox :=
  let adjustment := overlapAdjustment boundingBox boundingBox2 maxLongitude
  let bbox2 :=
    if adjustment ≠ 0 then
      ((boundingBox2.copy.setMinLongitude
        (boundingBox2.minLongitude + adjustment)).setMaxLongitude
        (boundingBox2.maxLongitude + adjustment))
    else boundingBox2
  boundingBox.overlap bbox2 allowEmpty

/-- `TileBoundingBoxUtils.overlap` with the caller-visible state made
explicit: the local `bbox2` starts as an alias of the caller's
`boundingBox2` and is re-bound to a fresh `copy()` before the two setters
run, so the setters mutate the copy; the second and third components are
the field values of the caller's two boxes after the call returns. -/
def overlapCallerState (boundingBox boundingBox2 : BoundingBox)
    (allowEmpty : Bool) (maxLongitude : ℚ) :
    Option BoundingBox × BoundingBox × BoundingBox :=
  let adjustment := overlapAdjustment boundingBox boundingBox2 maxLongitude
  if adjustment ≠ 0 then
    -- bbox2 = boundingBox2.copy(); bbox2.setMinLongitude(...); bbox2.setMaxLongitude(...)
    let bbox2 :=
      ((boundingBox2.copy.setMinLongitude
        (boundingBox2.minLongitude + adjustment)).setMaxLongitude
        (boundingBox2.maxLongitude + adjustment))
    (boundingBox.overlap bbox2 allowEmpty, boundingBox, boundingBox2)
  else
    (boundingBox.overlap boundingBox2 allowEmpty, boundingBox, boundingBox2)

/-- Claim C5: the two boxes touching at the anti-meridian overlap once the
second is shifted by `+2·maxLongitude`; the degenerate seam box is
returned, and with `maxLongitude ≤ 0` (no adjustment) the same call
returns none. -/
theorem claim_C5 (ml : ℚ) :
    overlap ⟨170, 180, -10, 10⟩ ⟨-180, -170, -10, 10⟩ false 180 =
      some ⟨180, 180, -10, 10⟩ ∧
    (ml ≤ 0 →
      overlap ⟨170, 180, -10, 10⟩ ⟨-180, -170, -10, 10⟩ false ml = none) := by
  constructor
  · norm_num [overlap, overlapAdjustment, BoundingBox.overlap,
      BoundingBox.copy, BoundingBox.setMinLongitude, BoundingBox.setMaxLongitude]
  · intro h
    have hml : ¬ (0 : ℚ) < ml := not_lt.mpr h
    simp only [overlap, overlapAdjustment, if_neg hml]
    norm_num [BoundingBox.overlap]

/-- Witness for claim C5 with the hypothesis discharged at
`maxLongitude = 0`. -/
theorem claim_C5_witness :
    overlap ⟨170, 180, -10, 10⟩ ⟨-180, -170, -10, 10⟩ false 180 =
      some ⟨180, 180, -10, 10⟩ ∧
    overlap ⟨170, 180, -10, 10⟩ ⟨-180, -170, -10, 10⟩ false 0 = none :=
  ⟨(claim_C5 0).1, (claim_C5 0).2 le_rfl⟩

/-- Claim C9: `overlap` never mutates either caller-supplied box — the
anti-meridian shift acts on a private copy — and the state-explicit
version computes the same result as the plain one. -/
theorem claim_C9 (boundingBox boundingBox2 : BoundingBox)
    (allowEmpty : Bool) (maxLongitude : ℚ) :
    (overlapCallerState boundingBox boundingBox2 allowEmpty maxLongitude).2.1 =
      boundingBox ∧
    (overlapCallerState boundingBox boundingBox2 allowEmpty maxLongitude).2.2 =
      boundingBox2 ∧
    (overlapCallerState boundingBox boundingBox2 allowEmpty maxLongitude).1 =
      overlap boundingBox boundingBox2 allowEmpty maxLongitude := by
  unfold overlapCallerState overlap
  by_cases h : overlapAdjustment boundingBox boundingBox2 maxLongitude ≠ 0
  · simp only [if_pos h]
    exact ⟨trivial, trivial, trivial⟩
  · simp only [if_neg h]
    exact ⟨trivial, trivial, trivial⟩

/-! ## Tile retrieval without matching zoom metadata (claim C8) -/

/-- `getTileGridWithTotalBoundingBox(totalBoundingBox, matrixWidth,
matrixHeight, boundingBox)`: columns and rows of the box corners, each
clamped into the matrix when the other end shows any overlap, assembled
with `new TileGrid(minColumn, maxColumn, minRow, maxRow)`. -/
def getTileGridWithTotalBoundingBox (totalBoundingBox : BoundingBox)
    (matrixWidth matrixHeight : ℚ) (boundingBox : BoundingBox) : TileGridNum :=
  let minColumn := getTileColumnWithTotalBoundingBox totalBoundingBox
    matrixWidth boundingBox.minLongitude
  let maxColumn := getTileColumnWithTotalBoundingBox totalBoundingBox
    matrixWidth boundingBox.maxLongitude
  let minColumn' := if minColumn < matrixWidth ∧ 0 ≤ maxColumn then
      (if minColumn < 0 then 0 else minColumn) else minColumn
  let maxColumn' := if minColumn < matrixWidth ∧ 0 ≤ maxColumn then
      (if matrixWidth ≤ maxColumn then matrixWidth - 1 else maxColumn)
    else maxColumn
  let maxRow := getRowWithTotalBoundingBox totalBoundingBox matrixHeight
    boundingBox.minLatitude
  let minRow := getRowWithTotalBoundingBox totalBoundingBox matrixHeight
    boundingBox.maxLatitude
  let minRow' := if minRow < matrixHeight ∧ 0 ≤ maxRow then
      (if minRow < 0 then 0 else minRow) else minRow
  let maxRow' := if minRow < matrixHeight ∧ 0 ≤ maxRow then
      (if matrixHeight ≤ maxRow then matrixHeight - 1 else maxRow) else maxRow
  ⟨minColumn', maxColumn', minRow', maxRow'⟩

/-- The tile dao facts `getTileWithBounds` consults: the matrix set's
total bounding box and the per-zoom tile matrix lookup
(`getTileMatrixWithZoomLevel` returns undefined — `none` — when no
metadata exists for the zoom level). -/
structure TileDao where
  tileMatrixSetBoundingBox : BoundingBox
  getTileMatrixWithZoomLevel : ℤ → Option TileMatrix

/-- Outcome of `getTileWithBounds`: either the early
`return Promise.resolve()` (no tile produced, no storage query, no
compositing), or the storage query issued for the computed tile grid at
the matrix's zoom level followed by compositing. -/
inductive GetTileOutcome where
  | empty : GetTileOutcome
  | queriedAndComposited : TileGridNum → ℤ → GetTileOutcome
deriving DecidableEq

/-- `getTileWithBounds(targetBoundingBox, zoom, ...)`: look up the tile
matrix for the zoom level; without one, resolve immediately with no
value; with one, query storage by the tile grid of the (already
reprojected) target box and composite the results. -/
def getTileWithBounds (dao : TileDao) (targetBoundingBox : BoundingBox)
    (zoom : ℤ) : GetTileOutcome :=
  match dao.getTileMatrixWithZoomLevel zoom with
  | none => GetTileOutcome.empty
  | some tileMatrix =>
      GetTileOutcome.queriedAndComposited
        (getTileGridWithTotalBoundingBox dao.tileMatrixSetBoundingBox
          tileMatrix.matrix_width tileMatrix.matrix_height targetBoundingBox)
        tileMatrix.zoom_level

/-- `retrieveTileResults(tileMatrixProjectionBoundingBox, tileMatrix)`:
with a tile matrix, the storage query parameters; without one, an
immediately resolved empty result. -/
def retrieveTileResults (dao : TileDao)
    (tileMatrixProjectionBoundingBox : BoundingBox)
    (tileMatrix : Option TileMatrix) : Option (TileGridNum × ℤ) :=
  tileMatrix.map (fun tm =>
    (getTileGridWithTotalBoundingBox dao.tileMatrixSetBoundingBox
      tm.matrix_width tm.matrix_height tileMatrixProjectionBoundingBox,
     tm.zoom_level))

/-- Claim C8: when no tile-matrix metadata exists for the selected zoom
level, retrieval completes with the empty outcome — no storage query and
no compositing — and `retrieveTileResults` likewise resolves empty. -/
theorem claim_C8 (dao : TileDao) (box : BoundingBox) (zoom : ℤ)
    (h : dao.getTileMatrixWithZoomLevel zoom = none) :
    getTileWithBounds dao box zoom = GetTileOutcome.empty ∧
    retrieveTileResults dao box none = none := by
  constructor
  · unfold getTileWithBounds
    rw [h]
  · rfl

/-- Witness for claim C8: a dao with no tile matrices yields the empty
outcome for a concrete request. -/
theorem claim_C8_witness :
    getTileWithBounds ⟨⟨0, 10, 0, 10⟩, fun _ => none⟩ ⟨1, 2, 1, 2⟩ 5 =
      GetTileOutcome.empty :=
  (claim_C8 ⟨⟨0, 10, 0, 10⟩, fun _ => none⟩ ⟨1, 2, 1, 2⟩ 5 rfl).1

end GeoPackage
